import Mathlib

/-!
Verification of the hassio-smarthome Home Assistant integration.

Shallow embedding of the Python sources:
  src/__init__.py, src/const.py, src/config_flow.py, src/options_flow.py,
  src/light.py, src/lights.py, src/sensor.py
Pure functions become Lean functions; handler methods become explicit
state-passing functions; Python exceptions become an Except error type.
-/

/-- Python runtime values that can appear as an MQTT payload after the
optional template transform: strings, ints, bools and None. -/
inductive PyVal : Type
  | str (s : String)
  | int (n : Int)
  | bool (b : Bool)
  | none
deriving DecidableEq

/-- Python exceptions that can escape the message handlers. -/
inductive PyError : Type
  | unicodeDecodeError
  | attributeError
deriving DecidableEq

/-- Python str() applied to a PyVal. -/
def pyStr : PyVal → String
  | .str s => s
  | .int n => toString n
  | .bool b => if b then "True" else "False"
  | .none => "None"

/-- Python str.strip() whitespace set (ASCII). -/
def isPySpace (c : Char) : Bool :=
  c = ' ' || c = '\t' || c = '\n' || c = '\r' || c = '\x0b' || c = '\x0c'

/-- Python str.strip(): remove leading and trailing whitespace. -/
def pyStrip (s : String) : String :=
  String.mk (((s.data.dropWhile isPySpace).reverse.dropWhile isPySpace).reverse)

/-- Python str.lower() (ASCII letters, which is all the code compares). -/
def pyLower (s : String) : String :=
  String.mk (s.data.map Char.toLower)

/-- Whether a byte is a UTF-8 continuation byte (10xxxxxx). -/
def isCont (b : Nat) : Bool :=
  decide (0x80 ≤ b) && decide (b ≤ 0xBF)

/-- Strict UTF-8 decoding of a byte list, as performed by Python
bytes.decode with encoding utf-8: rejects invalid lead bytes, truncated
sequences, overlong encodings and surrogate code points. -/
def utf8Decode? : List Nat → Option (List Char)
  | [] => some []
  | b1 :: rest =>
    if b1 ≤ 0x7F then
      match utf8Decode? rest with
      | some cs => some (Char.ofNat b1 :: cs)
      | Option.none => Option.none
    else if 0xC2 ≤ b1 ∧ b1 ≤ 0xDF then
      match rest with
      | b2 :: rest2 =>
        if isCont b2 then
          match utf8Decode? rest2 with
          | some cs => some (Char.ofNat ((b1 - 0xC0) * 0x40 + (b2 - 0x80)) :: cs)
          | Option.none => Option.none
        else Option.none
      | [] => Option.none
    else if 0xE0 ≤ b1 ∧ b1 ≤ 0xEF then
      match rest with
      | b2 :: b3 :: rest3 =>
        if isCont b2 ∧ isCont b3 ∧ (b1 ≠ 0xE0 ∨ 0xA0 ≤ b2) ∧ (b1 ≠ 0xED ∨ b2 ≤ 0x9F) then
          match utf8Decode? rest3 with
          | some cs =>
            some (Char.ofNat ((b1 - 0xE0) * 0x1000 + (b2 - 0x80) * 0x40 + (b3 - 0x80)) :: cs)
          | Option.none => Option.none
        else Option.none
      | _ => Option.none
    else if 0xF0 ≤ b1 ∧ b1 ≤ 0xF4 then
      match rest with
      | b2 :: b3 :: b4 :: rest4 =>
        if isCont b2 ∧ isCont b3 ∧ isCont b4 ∧ (b1 ≠ 0xF0 ∨ 0x90 ≤ b2) ∧ (b1 ≠ 0xF4 ∨ b2 ≤ 0x8F) then
          match utf8Decode? rest4 with
          | some cs =>
            some (Char.ofNat
              ((b1 - 0xF0) * 0x40000 + (b2 - 0x80) * 0x1000 + (b3 - 0x80) * 0x40 + (b4 - 0x80)) :: cs)
          | Option.none => Option.none
        else Option.none
      | _ => Option.none
    else Option.none

/-- An inbound MQTT message payload: raw bytes or already-decoded text
(the msg.payload value handed to the handlers). -/
inductive MqttPayload : Type
  | bytes (bs : List Nat)
  | text (s : String)
deriving DecidableEq

/-- First step of every handler (light.py 78-80, lights.py 243-245,
sensor.py 90-92): payload = msg.payload; if isinstance(payload, bytes):
payload = payload.decode("utf-8"). The decode call sits outside any
try block, so a UnicodeDecodeError propagates. -/
def decodePayload : MqttPayload → Except PyError PyVal
  | .text s => .ok (.str s)
  | .bytes bs =>
    match utf8Decode? bs with
    | some cs => .ok (.str (String.mk cs))
    | Option.none => .error .unicodeDecodeError

/-- Template step shared by all three handlers: if self._value_template
is truthy, render the template on the payload inside try/except, logging
and keeping the old payload on any template error. The rendering engine
is abstracted as the oracle ev; the Bool records whether a template
error was logged. -/
def applyTemplate (vt : String) (ev : PyVal → Except Unit PyVal) (p : PyVal) : PyVal × Bool :=
  if vt = "" then (p, false)
  else
    match ev p with
    | .ok v => (v, false)
    | .error _ => (p, true)

/-- Observable outcome of SmarthomeMqttLight._message_received in
src/light.py: the new cached boolean state, whether a template error was
logged, and whether the unexpected-payload error was logged. -/
structure LightMsgResult : Type where
  state : Bool
  tmpl_error_logged : Bool
  payload_error_logged : Bool
deriving DecidableEq

/-- SmarthomeMqttLight._message_received from src/light.py lines 76-102:
decode bytes, apply template, str() cast, strip, then payload "1" sets
state True, "0" sets False, anything else logs an error and leaves the
cached state unchanged. -/
def light_message_received (vt : String) (ev : PyVal → Except Unit PyVal)
    (state : Bool) (payload : MqttPayload) : Except PyError LightMsgResult :=
  match decodePayload payload with
  | .error e => .error e
  | .ok p0 =>
    let pt := applyTemplate vt ev p0
    let s := pyStrip (pyStr pt.1)
    if s = "1" then .ok ⟨true, pt.2, false⟩
    else if s = "0" then .ok ⟨false, pt.2, false⟩
    else .ok ⟨state, pt.2, true⟩

/-- Observable outcome of SmarthomeMqttLight._message_received in
src/lights.py: the new cached state and whether a template error was
logged (that handler logs nothing for an unrecognized payload). -/
structure LightsMsgResult : Type where
  state : Bool
  tmpl_error_logged : Bool
deriving DecidableEq

/-- SmarthomeMqttLight._message_received from src/lights.py lines 241-263:
decode bytes, apply template, then state := payload.lower() in
["on", "true", "1"], with no str() cast (a non-string template result
raises AttributeError), no strip, and no unexpected-payload logging. -/
def lights_message_received (vt : String) (ev : PyVal → Except Unit PyVal)
    (payload : MqttPayload) : Except PyError LightsMsgResult :=
  match decodePayload payload with
  | .error e => .error e
  | .ok p0 =>
    let pt := applyTemplate vt ev p0
    match pt.1 with
    | .str s => .ok ⟨decide (pyLower s ∈ ["on", "true", "1"]), pt.2⟩
    | _ => .error .attributeError

/-- Observable outcome of SmarthomeMqttSensor._message_received in
src/sensor.py: the stored state value, whether a template error was
logged, and how many button-pressed events the handler emitted. -/
structure SensorMsgResult : Type where
  state : PyVal
  tmpl_error_logged : Bool
  button_press_events : Nat
deriving DecidableEq

/-- SmarthomeMqttSensor._message_received from src/sensor.py lines 88-110:
decode bytes, apply template, store the resulting value as the state.
The source contains no press-detection branch and emits no event, so
button_press_events is 0 on every path. -/
def sensor_message_received (vt : String) (ev : PyVal → Except Unit PyVal)
    (payload : MqttPayload) : Except PyError SensorMsgResult :=
  match decodePayload payload with
  | .error e => .error e
  | .ok p0 =>
    let pt := applyTemplate vt ev p0
    .ok ⟨pt.1, pt.2, 0⟩

/-- Outcome of a relay command method: the (topic, payload) pairs
published and the cached state after the call. -/
structure CmdResult : Type where
  published : List (String × String)
  state : Bool
deriving DecidableEq

/-- SmarthomeMqttLight.async_turn_on from src/light.py lines 104-113:
publish "1" to the command topic; the cached state is not touched. -/
def light_async_turn_on (command_topic : String) (state : Bool) : CmdResult :=
  ⟨[(command_topic, "1")], state⟩

/-- SmarthomeMqttLight.async_turn_off from src/light.py lines 115-124:
publish "0" to the command topic; the cached state is not touched. -/
def light_async_turn_off (command_topic : String) (state : Bool) : CmdResult :=
  ⟨[(command_topic, "0")], state⟩

/-- SmarthomeMqttLight.async_turn_on from src/lights.py lines 265-276:
publish "ON" and optimistically set the cached state to True, ignoring
the previous cached state. -/
def lights_async_turn_on (command_topic : String) (_state : Bool) : CmdResult :=
  ⟨[(command_topic, "ON")], true⟩

/-- SmarthomeMqttLight.async_turn_off from src/lights.py lines 278-289:
publish "OFF" and optimistically set the cached state to False, ignoring
the previous cached state. -/
def lights_async_turn_off (command_topic : String) (_state : Bool) : CmdResult :=
  ⟨[(command_topic, "OFF")], false⟩

/-- Little-endian decimal digits of a natural number, driven by explicit
fuel so that the definition is structural and kernel-evaluable. -/
def digitsLEF : Nat → Nat → List Nat
  | 0, _ => []
  | fuel + 1, n => if n < 10 then [n] else n % 10 :: digitsLEF fuel (n / 10)

/-- Little-endian decimal digits of n (fuel n+1 always suffices). -/
def natDigitsLE (n : Nat) : List Nat := digitsLEF (n + 1) n

/-- Decimal rendering of a natural number, as produced for the
non-negative module_id and index values by a Python f-string. -/
def natStr (n : Nat) : String :=
  String.mk ((natDigitsLE n).reverse.map Nat.digitChar)

/-- The digit list does not depend on the fuel once the fuel exceeds n. -/
theorem digitsLEF_fuel (f : Nat) : ∀ g n : Nat, n < f → n < g →
    digitsLEF f n = digitsLEF g n := by
  induction f with
  | zero => intro g n hf _; omega
  | succ f ih =>
    intro g n hf hg
    cases g with
    | zero => omega
    | succ g =>
      simp only [digitsLEF]
      by_cases h10 : n < 10
      · simp [h10]
      · have hdiv : n / 10 < n := Nat.div_lt_self (by omega) (by omega)
        simp only [h10, if_false]
        rw [ih g (n / 10) (by omega) (by omega)]

/-- Value of a little-endian digit list. -/
def ofDigitsLE : List Nat → Nat
  | [] => 0
  | d :: ds => d + 10 * ofDigitsLE ds

/-- Round trip: the rendered digits evaluate back to the number. -/
theorem ofDigitsLE_digitsLEF (f : Nat) : ∀ n : Nat, n < f →
    ofDigitsLE (digitsLEF f n) = n := by
  induction f with
  | zero => intro n h; omega
  | succ f ih =>
    intro n h
    simp only [digitsLEF]
    by_cases h10 : n < 10
    · simp [h10, ofDigitsLE]
    · have hdiv : n / 10 < n := Nat.div_lt_self (by omega) (by omega)
      simp only [h10, if_false, ofDigitsLE]
      rw [ih (n / 10) (by omega)]
      omega

/-- The digit list determines the number. -/
theorem natDigitsLE_inj {m n : Nat} (h : natDigitsLE m = natDigitsLE n) : m = n := by
  have hm := ofDigitsLE_digitsLEF (m + 1) m (by omega)
  have hn := ofDigitsLE_digitsLEF (n + 1) n (by omega)
  rw [natDigitsLE, natDigitsLE] at h
  rw [← hm, ← hn, h]

/-- Every rendered digit is below 10. -/
theorem digitsLEF_lt (f : Nat) : ∀ n : Nat, ∀ d ∈ digitsLEF f n, d < 10 := by
  induction f with
  | zero => intro n d hd; simp [digitsLEF] at hd
  | succ f ih =>
    intro n d hd
    simp only [digitsLEF] at hd
    by_cases h10 : n < 10
    · simp [h10] at hd; omega
    · simp only [h10, if_false, List.mem_cons] at hd
      rcases hd with hd | hd
      · omega
      · exact ih (n / 10) d hd

/-- Nat.digitChar is injective on digits. -/
theorem digitChar_inj10 : ∀ d < 10, ∀ e < 10, Nat.digitChar d = Nat.digitChar e → d = e := by
  decide

/-- No digit renders as a slash. -/
theorem digitChar_ne_slash : ∀ d < 10, Nat.digitChar d ≠ '/' := by decide

/-- Mapping Nat.digitChar over digit lists is injective. -/
theorem map_digitChar_inj : ∀ l₁ l₂ : List Nat, (∀ d ∈ l₁, d < 10) → (∀ d ∈ l₂, d < 10) →
    l₁.map Nat.digitChar = l₂.map Nat.digitChar → l₁ = l₂ := by
  intro l₁
  induction l₁ with
  | nil =>
    intro l₂ _ _ h
    cases l₂ with
    | nil => rfl
    | cons b bs => simp at h
  | cons a as ih =>
    intro l₂ h₁ h₂ h
    cases l₂ with
    | nil => simp at h
    | cons b bs =>
      simp only [List.map_cons, List.cons.injEq] at h
      have hab : a = b :=
        digitChar_inj10 a (h₁ a (by simp)) b (h₂ b (by simp)) h.1
      subst hab
      rw [ih bs (fun d hd => h₁ d (by simp [hd])) (fun d hd => h₂ d (by simp [hd])) h.2]

/-- Decimal rendering is injective. -/
theorem natStr_inj {m n : Nat} (h : natStr m = natStr n) : m = n := by
  have hdata : (natDigitsLE m).reverse.map Nat.digitChar
      = (natDigitsLE n).reverse.map Nat.digitChar := by
    have := congrArg String.data h
    simpa [natStr] using this
  have hrev : (natDigitsLE m).reverse = (natDigitsLE n).reverse :=
    map_digitChar_inj _ _
      (fun d hd => digitsLEF_lt _ _ d (List.mem_reverse.mp hd))
      (fun d hd => digitsLEF_lt _ _ d (List.mem_reverse.mp hd)) hdata
  exact natDigitsLE_inj (List.reverse_injective hrev)

/-- Decimal renderings contain no slash character. -/
theorem natStr_no_slash (n : Nat) : ∀ c ∈ (natStr n).data, c ≠ '/' := by
  intro c hc
  simp only [natStr] at hc
  rw [List.mem_map] at hc
  obtain ⟨d, hd, rfl⟩ := hc
  exact digitChar_ne_slash d (digitsLEF_lt _ _ d (List.mem_reverse.mp hd))

/-- Appending a string takes data to list append. -/
theorem data_append (a b : String) : (a ++ b).data = a.data ++ b.data := rfl

/-- Splitting at the first slash is unambiguous when the left parts are
slash-free. -/
theorem append_slash_inj : ∀ xs ys zs ws : List Char,
    (∀ c ∈ xs, c ≠ '/') → (∀ c ∈ ys, c ≠ '/') →
    xs ++ '/' :: zs = ys ++ '/' :: ws → xs = ys ∧ zs = ws := by
  intro xs
  induction xs with
  | nil =>
    intro ys zs ws _ hy h
    cases ys with
    | nil => simpa using h
    | cons b bs =>
      simp only [List.nil_append, List.cons_append, List.cons.injEq] at h
      exact absurd h.1.symm (hy b (by simp))
  | cons a as ih =>
    intro ys zs ws hx hy h
    cases ys with
    | nil =>
      simp only [List.nil_append, List.cons_append, List.cons.injEq] at h
      exact absurd h.1 (hx a (by simp))
    | cons b bs =>
      simp only [List.cons_append, List.cons.injEq] at h
      obtain ⟨rfl, h2⟩ := h
      obtain ⟨h3, h4⟩ := ih bs zs ws
        (fun c hc => hx c (by simp [hc])) (fun c hc => hy c (by simp [hc])) h2
      exact ⟨by rw [h3], h4⟩

/-- Channel kinds of the data model: a relay output or a button input. -/
inductive ChannelKind : Type
  | relay
  | button
deriving DecidableEq, Fintype

/-- The device_type string the sensor constructor receives for a kind. -/
def device_type_of : ChannelKind → String
  | .relay => "relay"
  | .button => "button"

/-- The plural topic segment used for a kind. -/
def kind_word : ChannelKind → String
  | .relay => "relays"
  | .button => "buttons"

/-- State topic chosen by SmarthomeMqttSensor.__init__ in src/sensor.py
lines 66-73, keyed on the device_type string. -/
def sensor_state_topic (module_id sensor_index : Nat) (device_type : String) : String :=
  if device_type = "relay" then
    "modules/" ++ natStr module_id ++ "/relays/" ++ natStr sensor_index
  else
    "modules/" ++ natStr module_id ++ "/buttons/" ++ natStr sensor_index

/-- State topic of SmarthomeMqttLight.__init__ in src/light.py line 62. -/
def light_state_topic (module_id relay_index : Nat) : String :=
  "modules/" ++ natStr module_id ++ "/relays/" ++ natStr relay_index

/-- Command topic of SmarthomeMqttLight.__init__ in src/light.py line 64. -/
def light_command_topic (module_id relay_index : Nat) : String :=
  "modules/" ++ natStr module_id ++ "/relays/" ++ natStr relay_index ++ "/set"

/-- State topic format stated by the spec:
modules/{module_id}/{kind}s/{index}. -/
def spec_state_topic (module_id : Nat) (kind : ChannelKind) (index : Nat) : String :=
  "modules/" ++ natStr module_id ++ "/" ++ device_type_of kind ++ "s/" ++ natStr index

/-- Command topic format stated by the spec:
modules/{module_id}/relays/{index}/set. -/
def spec_command_topic (module_id index : Nat) : String :=
  "modules/" ++ natStr module_id ++ "/relays/" ++ natStr index ++ "/set"

/-- Normal form of the sensor state topic character data, split at the
three slashes. -/
theorem sensor_state_topic_data (m i : Nat) (k : ChannelKind) :
    (sensor_state_topic m i (device_type_of k)).data =
      "modules".data ++ '/' ::
        ((natStr m).data ++ '/' :: ((kind_word k).data ++ '/' :: (natStr i).data)) := by
  cases k <;>
    simp [sensor_state_topic, device_type_of, kind_word, data_append, List.append_assoc]

/-- The words "modules", "relays" and "buttons" are slash-free. -/
theorem kind_word_no_slash (k : ChannelKind) : ∀ c ∈ (kind_word k).data, c ≠ '/' := by
  cases k <;> decide

/-- The literal segment "modules" is slash-free. -/
theorem modules_no_slash : ∀ c ∈ ("modules" : String).data, c ≠ '/' := by decide

/-- The kind is determined by its topic segment. -/
theorem kind_word_data_inj : ∀ k k' : ChannelKind,
    (kind_word k).data = (kind_word k').data → k = k' := by decide

/-- User input to the config flow after voluptuous coercion: the three
integers and the value template (src/config_flow.py DATA_SCHEMA). -/
structure ConfigInput : Type where
  module_id : Int
  relay_count : Int
  button_count : Int
  value_template : String
deriving DecidableEq

/-- Outcome of a config flow step: an entry is created, or the form is
shown again carrying the accumulated errors dictionary. -/
inductive ConfigFlowResult : Type
  | createEntry (title : String) (data : ConfigInput)
  | showForm (errors : List (String × String))
deriving DecidableEq

/-- Entry title built in src/config_flow.py lines 48-51. -/
def config_flow_title (u : ConfigInput) : String :=
  "Module " ++ toString u.module_id ++ " (Relays: " ++ toString u.relay_count
    ++ ", Buttons: " ++ toString u.button_count ++ ")"

/-- Errors dictionary accumulated by SmarthomeConfigFlow.async_step_user
in src/config_flow.py lines 36-47, in insertion order. -/
def config_flow_errors (u : ConfigInput) : List (String × String) :=
  (if u.module_id < 0 then [("module_id", "Module ID must be non-negative.")] else [])
    ++ (if u.relay_count < 0 then [("relay_count", "Relay count cannot be negative.")] else [])
    ++ (if u.button_count < 0 then
          [("button_count", "Button count cannot be negative.")] else [])
    ++ (if u.relay_count = 0 ∧ u.button_count = 0 then
          [("base",
            "At least one of relay_count or button_count must be greater than 0.")]
        else [])

/-- SmarthomeConfigFlow.async_step_user from src/config_flow.py lines
29-60: validate the input, collect errors, and create the entry only
when the errors dictionary stayed empty. -/
def config_async_step_user (user_input : Option ConfigInput) : ConfigFlowResult :=
  match user_input with
  | Option.none => .showForm []
  | some u =>
    if config_flow_errors u = [] then .createEntry (config_flow_title u) u
    else .showForm (config_flow_errors u)

/-- A sensor entity as constructed by SmarthomeMqttSensor.__init__:
its identity fields and the configured value template. -/
structure SensorEntity : Type where
  module_id : Nat
  device_type : String
  sensor_index : Nat
  value_template : String
deriving DecidableEq

/-- Channel identity of a sensor entity: (module_id, kind, index). -/
def SensorEntity.identity (e : SensorEntity) : Nat × String × Nat :=
  (e.module_id, e.device_type, e.sensor_index)

/-- async_setup_entry from src/sensor.py lines 15-43: one relay sensor
per index in range relay_count, then one button sensor per index in
range button_count. -/
def sensor_async_setup_entry (module_id relay_count button_count : Nat)
    (vt : String) : List SensorEntity :=
  (List.range relay_count).map (fun i => ⟨module_id, "relay", i, vt⟩)
    ++ (List.range button_count).map (fun i => ⟨module_id, "button", i, vt⟩)

/-- The sensor platform setup calls async_add_entities exactly once, on
the whole list (src/sensor.py line 43): a single registration batch. -/
def sensor_setup_batches (module_id relay_count button_count : Nat)
    (vt : String) : List (List SensorEntity) :=
  [sensor_async_setup_entry module_id relay_count button_count vt]

/-- A light entity as constructed by SmarthomeMqttLight.__init__. -/
structure LightEntity : Type where
  module_id : Nat
  relay_index : Nat
  value_template : String
deriving DecidableEq

/-- async_setup_entry from src/light.py lines 16-36: one light per relay
index. -/
def light_async_setup_entry (module_id relay_count : Nat) (vt : String) : List LightEntity :=
  (List.range relay_count).map (fun i => ⟨module_id, i, vt⟩)

/-- An entity registered with Home Assistant by either platform. -/
inductive HAEntity : Type
  | sensor (e : SensorEntity)
  | light (e : LightEntity)
deriving DecidableEq

/-- Whether a registered entity is a Light entity. -/
def HAEntity.is_light : HAEntity → Bool
  | .light _ => true
  | .sensor _ => false

/-- The Home Assistant platforms this integration defines modules for. -/
inductive Platform : Type
  | sensor
  | light
deriving DecidableEq

/-- PLATFORMS from src/__init__.py line 7: only Platform.SENSOR. -/
def PLATFORMS : List Platform := [Platform.sensor]

/-- Entities a platform module contributes when entry setup is forwarded
to it (src/sensor.py and src/light.py async_setup_entry). -/
def platform_setup_entities (p : Platform) (module_id relay_count button_count : Nat)
    (vt : String) : List HAEntity :=
  match p with
  | .sensor => (sensor_async_setup_entry module_id relay_count button_count vt).map .sensor
  | .light => (light_async_setup_entry module_id relay_count vt).map .light

/-- async_setup_entry from src/__init__.py lines 13-17: forward the
entry to every platform listed in PLATFORMS; the entities instantiated
are those the forwarded platforms contribute. -/
def entry_setup_entities (module_id relay_count button_count : Nat)
    (vt : String) : List HAEntity :=
  (PLATFORMS.map (fun p => platform_setup_entities p module_id relay_count button_count vt)).flatten

/-- YAML values relevant to the options flow mapping: null, integers,
strings, sequences and mappings. -/
inductive YamlValue : Type
  | ynull
  | yint (n : Int)
  | ystr (s : String)
  | yseq (items : List YamlValue)
  | ymap (entries : List (YamlValue × YamlValue))

/-- Split a character list on every occurrence of a separator. -/
def splitOnChar (c : Char) : List Char → List (List Char)
  | [] => [[]]
  | x :: xs =>
    match splitOnChar c xs with
    | [] => [[x]]
    | y :: ys => if x = c then [] :: y :: ys else (x :: y) :: ys

/-- Split a character list at the first occurrence of a separator. -/
def splitFirstChar (c : Char) : List Char → Option (List Char × List Char)
  | [] => Option.none
  | x :: xs =>
    if x = c then some ([], xs)
    else
      match splitFirstChar c xs with
      | some lr => some (x :: lr.1, lr.2)
      | Option.none => Option.none

/-- Strip leading and trailing whitespace from a character list. -/
def stripChars (l : List Char) : List Char :=
  ((l.dropWhile isPySpace).reverse.dropWhile isPySpace).reverse

/-- Decimal value of a digit character list. -/
def digitsToNat (l : List Char) : Nat :=
  l.foldl (fun acc c => acc * 10 + (c.toNat - 48)) 0

/-- Modelled from the spec: scalar parsing inside PyYAML yaml.safe_load,
an external library this repository imports but does not contain. Plain
integers become ints, empty content becomes null, everything else is a
string, to the depth the spec exercises. -/
def parseAtom (l : List Char) : YamlValue :=
  let t := stripChars l
  if t = [] then .ynull
  else if t.all Char.isDigit then .yint (Int.ofNat (digitsToNat t))
  else if t.head? = some '-' ∧ t.drop 1 ≠ [] ∧ (t.drop 1).all Char.isDigit then
    .yint (-(Int.ofNat (digitsToNat (t.drop 1))))
  else .ystr (String.mk t)

/-- Modelled from the spec: a node that is either a flow sequence such
as [4, 5] of scalar items, or a plain scalar. -/
def parseFlowOrAtom (l : List Char) : YamlValue :=
  let t := stripChars l
  if t.head? = some '[' ∧ t.getLast? = some ']' then
    let inner := stripChars ((t.drop 1).dropLast)
    if inner = [] then .yseq []
    else .yseq ((splitOnChar ',' inner).map parseAtom)
  else parseAtom l

/-- A line that carries content: neither blank nor a comment line. -/
def isContentLine (l : List Char) : Bool :=
  let t := stripChars l
  decide (t ≠ [] ∧ t.head? ≠ some '#')

/-- A block sequence item line: a dash followed by the item. -/
def seqItem? (l : List Char) : Option (List Char) :=
  match stripChars l with
  | '-' :: ' ' :: rest => some rest
  | ['-'] => some []
  | _ => Option.none

/-- A block mapping line: key, colon, value. -/
def parseMapLine (l : List Char) : Option (YamlValue × YamlValue) :=
  match splitFirstChar ':' l with
  | some kv => some (parseAtom kv.1, parseFlowOrAtom kv.2)
  | Option.none => Option.none

/-- Modelled from the spec: yaml.safe_load over the content lines of the
document. An empty document is null; lines that all start with a dash
form a sequence; lines that all carry a colon form a mapping; a single
remaining line is a scalar; anything else is a parse error. -/
def safe_load_lines (ls : List (List Char)) : Except String YamlValue :=
  match ls with
  | [] => .ok .ynull
  | _ =>
    if ls.all (fun l => (seqItem? l).isSome) then
      .ok (.yseq (ls.map (fun l => parseFlowOrAtom ((seqItem? l).getD []))))
    else if ls.all (fun l => (parseMapLine l).isSome) then
      .ok (.ymap (ls.filterMap parseMapLine))
    else
      match ls with
      | [l] => .ok (parseFlowOrAtom l)
      | _ => .error "could not determine a constructor for the block node"

/-- Modelled from the spec: PyYAML yaml.safe_load on a document string,
an external library dependency that is not part of src/. Only the
shapes the spec exercises are modelled: top-level mappings, block
sequences, integer scalars, flow lists, comments and blank lines. -/
def safe_load (s : String) : Except String YamlValue :=
  safe_load_lines ((splitOnChar '\n' s.data).filter isContentLine)

/-- Scalar rendering for the modelled yaml.safe_dump. -/
def dump_atom : YamlValue → String
  | .ynull => "null"
  | .yint n => toString n
  | .ystr s => s
  | .yseq _ => ""
  | .ymap _ => ""

/-- Value rendering for the modelled yaml.safe_dump: flow style for
sequences, scalar otherwise. -/
def dump_value : YamlValue → String
  | .yseq items => "[" ++ String.intercalate ", " (items.map dump_atom) ++ "]"
  | v => dump_atom v

/-- Modelled from the spec: PyYAML yaml.safe_dump with
default_flow_style False, an external library dependency that is not
part of src/, modelled for the mapping shapes the options flow stores. -/
def safe_dump : YamlValue → String
  | .ymap entries =>
    String.join (entries.map (fun e => dump_atom e.1 ++ ": " ++ dump_value e.2 ++ "\n"))
  | v => dump_value v ++ "\n"

/-- DEFAULT_MAPPING_YAML from src/options_flow.py lines 154-159. -/
def DEFAULT_MAPPING_YAML : String :=
  "# Enter your button-to-relay mapping here.\n# Example:\n# 12: 4\n# 15: [4, 5]\n"

/-- Outcome of an options flow step: either the form is shown again
with a default text and errors, or the options entry is updated with
the parsed mapping. -/
inductive OptionsFlowResult : Type
  | showForm (default_mapping : String) (errors : List (String × String))
  | createEntry (mapping : YamlValue)

/-- Default mapping text shown by the options form (src/options_flow.py
lines 177-188): the stored mapping dumped to YAML, or the commented
example when nothing is stored. -/
def options_default_mapping (stored : Option YamlValue) : String :=
  match stored with
  | Option.none => DEFAULT_MAPPING_YAML
  | some m => safe_dump m

/-- Python isinstance(mapping_data, dict) on a YAML value. -/
def yaml_is_dict : YamlValue → Bool
  | .ymap _ => true
  | _ => false

/-- SmarthomeOptionsFlow.async_step_user from src/options_flow.py lines
173-221: parse the submitted mapping text, reject a parse error or a
non-mapping root with one error and redisplay the form whose default
comes from the stored options, and update the options only on
acceptance. -/
def options_async_step_user (stored : Option YamlValue)
    (user_input : Option String) : OptionsFlowResult :=
  let default_mapping := options_default_mapping stored
  match user_input with
  | Option.none => .showForm default_mapping []
  | some s =>
    match safe_load s with
    | .ok v =>
      if yaml_is_dict v then .createEntry v
      else .showForm default_mapping [("mapping", "Mapping must be a YAML dictionary.")]
    | .error _ => .showForm default_mapping [("mapping", "Invalid YAML format.")]

/-- Claim C1 counterexample: on a lights.py channel whose cached state
is ON, the payload "2" decodes to OFF with no error logged, so decoding
a value other than "1" and "0" does not leave the previous cached state
unchanged and does not record an error, contrary to the claim. -/
theorem C1_counterexample :
    lights_message_received "\x7b\x7b value \x7d\x7d" (fun v => Except.ok v)
        (MqttPayload.text "2")
      = Except.ok { state := false, tmpl_error_logged := false } ∧
    ({ state := false, tmpl_error_logged := false } : LightsMsgResult)
      ≠ { state := true, tmpl_error_logged := false } :=
  ⟨rfl, by decide⟩

/-- Claim C1, amended: for channels of src/light.py the claim holds as
stated: after the optional template transform, str() cast and whitespace
strip, the literal "1" yields ON, "0" yields OFF, and any other value
logs an error and preserves the cached state. Channels of src/lights.py
instead always overwrite the state with the membership test
lower(payload) in [on, true, 1], with no stripping, no preservation of
the previous state and no unexpected-payload logging. -/
theorem C1_amended_decode : ∀ (vt : String) (ev : PyVal → Except Unit PyVal) (prev : Bool)
    (p : MqttPayload) (p0 : PyVal), decodePayload p = Except.ok p0 →
    (light_message_received vt ev prev p =
      (if pyStrip (pyStr (applyTemplate vt ev p0).1) = "1" then
        Except.ok ⟨true, (applyTemplate vt ev p0).2, false⟩
      else if pyStrip (pyStr (applyTemplate vt ev p0).1) = "0" then
        Except.ok ⟨false, (applyTemplate vt ev p0).2, false⟩
      else Except.ok ⟨prev, (applyTemplate vt ev p0).2, true⟩)) ∧
    (∀ s : String, (applyTemplate vt ev p0).1 = .str s →
      lights_message_received vt ev p =
        Except.ok ⟨decide (pyLower s ∈ ["on", "true", "1"]), (applyTemplate vt ev p0).2⟩) := by
  intro vt ev prev p p0 h
  constructor
  · simp only [light_message_received, h]
  · intro s hs
    simp only [lights_message_received, h, hs]

/-- Claim C1 witness: the amended theorem applied to the concrete
payload "junk" with no template, on both light classes. -/
theorem C1_amended_decode_witness :
    light_message_received "" (fun v => Except.ok v) false (MqttPayload.text "junk")
      = Except.ok { state := false, tmpl_error_logged := false, payload_error_logged := true } ∧
    lights_message_received "" (fun v => Except.ok v) (MqttPayload.text "junk")
      = Except.ok { state := false, tmpl_error_logged := false } := by
  have h := C1_amended_decode "" (fun v => Except.ok v) false (MqttPayload.text "junk")
    (PyVal.str "junk") rfl
  exact ⟨h.1.trans rfl, (h.2 "junk" rfl).trans rfl⟩

/-- Claim C2 counterexample: a button channel message whose decoded
value is the primitive 1 produces zero button-pressed events, not
exactly one as the claim states. -/
theorem C2_counterexample :
    sensor_message_received "\x7b\x7b value \x7d\x7d" (fun _ => Except.ok (PyVal.int 1))
        (MqttPayload.text "1")
      = Except.ok { state := PyVal.int 1, tmpl_error_logged := false, button_press_events := 0 } ∧
    (0 : Nat) ≠ 1 :=
  ⟨rfl, by decide⟩

/-- Claim C2, amended: the sensor handler stores the decoded value as
the channel state but emits no button-pressed event at all: zero events
for every message, including messages whose decoded value equals the
primitive 1. -/
theorem C2_no_press_event : ∀ (vt : String) (ev : PyVal → Except Unit PyVal)
    (p : MqttPayload) (r : SensorMsgResult),
    sensor_message_received vt ev p = Except.ok r →
    r.button_press_events = 0 ∧
    ∃ p0, decodePayload p = Except.ok p0 ∧ r.state = (applyTemplate vt ev p0).1 := by
  intro vt ev p r h
  cases hd : decodePayload p with
  | error e => simp [sensor_message_received, hd] at h
  | ok p0 =>
    simp only [sensor_message_received, hd, Except.ok.injEq] at h
    subst h
    exact ⟨rfl, p0, rfl, rfl⟩

/-- Claim C2 witness: the amended theorem applied to the concrete
payload "1" with no template. -/
theorem C2_no_press_event_witness :
    ({ state := PyVal.str "1", tmpl_error_logged := false, button_press_events := 0 }
        : SensorMsgResult).button_press_events = 0 ∧
    ∃ p0, decodePayload (MqttPayload.text "1") = Except.ok p0 ∧
      ({ state := PyVal.str "1", tmpl_error_logged := false, button_press_events := 0 }
          : SensorMsgResult).state
        = (applyTemplate "" (fun v => Except.ok v) p0).1 :=
  C2_no_press_event "" (fun v => Except.ok v) (MqttPayload.text "1")
    { state := PyVal.str "1", tmpl_error_logged := false, button_press_events := 0 } rfl

/-- Claim C3 counterexample: turn_on of the lights.py class publishes
the literal "ON", not the literal "1", to the command topic. -/
theorem C3_counterexample :
    lights_async_turn_on (light_command_topic 0 0) false
      = { published := [(light_command_topic 0 0, "ON")], state := true } ∧
    ("ON" : String) ≠ "1" :=
  ⟨rfl, by decide⟩

/-- Claim C3, amended: for relay channels of src/light.py the claim
holds: turn_on publishes exactly "1", turn_off exactly "0", and decoding
each published literal yields the encoded state. For relay channels of
src/lights.py, turn_on publishes "ON" and turn_off "OFF"; decoding those
literals also round-trips to the encoded state. -/
theorem C3_encode_roundtrip : ∀ (ct : String) (prev : Bool) (ev : PyVal → Except Unit PyVal),
    light_async_turn_on ct prev = { published := [(ct, "1")], state := prev } ∧
    light_async_turn_off ct prev = { published := [(ct, "0")], state := prev } ∧
    light_message_received "" ev prev (MqttPayload.text "1")
      = Except.ok { state := true, tmpl_error_logged := false, payload_error_logged := false } ∧
    light_message_received "" ev prev (MqttPayload.text "0")
      = Except.ok { state := false, tmpl_error_logged := false, payload_error_logged := false } ∧
    lights_async_turn_on ct prev = { published := [(ct, "ON")], state := true } ∧
    lights_async_turn_off ct prev = { published := [(ct, "OFF")], state := false } ∧
    lights_message_received "" ev (MqttPayload.text "ON")
      = Except.ok { state := true, tmpl_error_logged := false } ∧
    lights_message_received "" ev (MqttPayload.text "OFF")
      = Except.ok { state := false, tmpl_error_logged := false } :=
  fun _ _ _ => ⟨rfl, rfl, rfl, rfl, rfl, rfl, rfl, rfl⟩

/-- Claim C4 counterexample: turn_off of the lights.py class changes
the cached state from ON to OFF at the moment of the command, before
any hub republish. -/
theorem C4_counterexample :
    (lights_async_turn_off (light_command_topic 0 0) true).state = false ∧
    (false : Bool) ≠ true :=
  ⟨rfl, by decide⟩

/-- Claim C4, amended: commands of the src/light.py class publish to
the command topic and leave the cached state exactly as it was, so its
state changes only through the message handler; commands of the
src/lights.py class optimistically set the cached state to ON and OFF
respectively. -/
theorem C4_command_state : ∀ (ct : String) (prev : Bool),
    (light_async_turn_on ct prev).state = prev ∧
    (light_async_turn_off ct prev).state = prev ∧
    (light_async_turn_on ct prev).published = [(ct, "1")] ∧
    (light_async_turn_off ct prev).published = [(ct, "0")] ∧
    (lights_async_turn_on ct prev).state = true ∧
    (lights_async_turn_off ct prev).state = false :=
  fun _ _ => ⟨rfl, rfl, rfl, rfl, rfl, rfl⟩

/-- Claim C5: PLATFORMS contains exactly the sensor platform, so entry
setup instantiates exactly the sensor entities and no light entity is
ever registered from an entry. -/
theorem C5_sensor_platform_only : PLATFORMS = [Platform.sensor] ∧
    (∀ (m rc bc : Nat) (vt : String), entry_setup_entities m rc bc vt
      = (sensor_async_setup_entry m rc bc vt).map HAEntity.sensor) ∧
    (∀ (m rc bc : Nat) (vt : String) (e : HAEntity),
      e ∈ entry_setup_entities m rc bc vt → e.is_light = false) := by
  refine ⟨rfl, ?_, ?_⟩
  · intro m rc bc vt
    simp [entry_setup_entities, PLATFORMS, platform_setup_entities]
  · intro m rc bc vt e he
    simp only [entry_setup_entities, PLATFORMS, platform_setup_entities, List.map_cons,
      List.map_nil, List.flatten, List.append_nil, List.mem_map] at he
    obtain ⟨se, _, rfl⟩ := he
    rfl

/-- Claim C5 witness: the only-sensor property applied to a concrete
entity of a concrete entry. -/
theorem C5_sensor_platform_only_witness :
    (HAEntity.sensor ⟨1, "relay", 0, "t"⟩).is_light = false :=
  C5_sensor_platform_only.2.2 1 1 0 "t" (HAEntity.sensor ⟨1, "relay", 0, "t"⟩) (by decide)

/-- Claim C6: the state topic of every channel equals
modules/(module_id)/(kind)s/(index), the relay command topic equals
modules/(module_id)/relays/(index)/set, and the state topic map is
injective across all (module_id, kind, index) tuples, so no two
distinct channels share a state topic. -/
theorem C6_topic_naming :
    (∀ (m i : Nat) (k : ChannelKind),
      sensor_state_topic m i (device_type_of k) = spec_state_topic m k i) ∧
    (∀ m i : Nat, light_state_topic m i = sensor_state_topic m i (device_type_of .relay)) ∧
    (∀ m i : Nat, light_command_topic m i = spec_command_topic m i) ∧
    (∀ (m i : Nat) (k : ChannelKind) (m2 i2 : Nat) (k2 : ChannelKind),
      sensor_state_topic m i (device_type_of k) = sensor_state_topic m2 i2 (device_type_of k2) →
      m = m2 ∧ k = k2 ∧ i = i2) := by
  refine ⟨?_, fun m i => rfl, fun m i => rfl, ?_⟩
  · intro m i k
    apply String.ext
    cases k <;>
      simp [sensor_state_topic, spec_state_topic, device_type_of, data_append,
        List.append_assoc]
  · intro m i k m2 i2 k2 h
    have hd := congrArg String.data h
    rw [sensor_state_topic_data, sensor_state_topic_data] at hd
    obtain ⟨-, hd⟩ := append_slash_inj _ _ _ _ modules_no_slash modules_no_slash hd
    obtain ⟨h1, hd⟩ := append_slash_inj _ _ _ _ (natStr_no_slash m) (natStr_no_slash m2) hd
    obtain ⟨h2, h3⟩ := append_slash_inj _ _ _ _ (kind_word_no_slash k) (kind_word_no_slash k2) hd
    exact ⟨natStr_inj (String.ext h1), kind_word_data_inj k k2 h2, natStr_inj (String.ext h3)⟩

/-- Claim C6 witness: injectivity applied at a concrete channel. -/
theorem C6_topic_naming_witness :
    (1 : Nat) = 1 ∧ ChannelKind.relay = ChannelKind.relay ∧ (2 : Nat) = 2 :=
  C6_topic_naming.2.2.2 1 2 ChannelKind.relay 1 2 ChannelKind.relay rfl

/-- Claim C7: a submission with module_id equal to -1, or with both
counts zero, or with a negative relay or button count, is rejected: the
flow returns the form with a non-empty errors dictionary and creates no
entry. -/
theorem C7_config_validation : ∀ u : ConfigInput,
    (u.module_id = -1 →
      ∃ errs, errs ≠ [] ∧ config_async_step_user (some u) = .showForm errs) ∧
    (u.relay_count = 0 ∧ u.button_count = 0 →
      ∃ errs, errs ≠ [] ∧ config_async_step_user (some u) = .showForm errs) ∧
    (u.relay_count < 0 ∨ u.button_count < 0 →
      ∃ errs, errs ≠ [] ∧ config_async_step_user (some u) = .showForm errs) := by
  intro u
  refine ⟨?_, ?_, ?_⟩
  · intro h
    have hne : config_flow_errors u ≠ [] := by
      simp [config_flow_errors, h, List.append_eq_nil]
    exact ⟨_, hne, by simp [config_async_step_user, hne]⟩
  · intro h
    have hne : config_flow_errors u ≠ [] := by
      simp [config_flow_errors, h.1, h.2, List.append_eq_nil]
    exact ⟨_, hne, by simp [config_async_step_user, hne]⟩
  · intro h
    have hne : config_flow_errors u ≠ [] := by
      rcases h with h | h <;> simp [config_flow_errors, h, List.append_eq_nil]
    exact ⟨_, hne, by simp [config_async_step_user, hne]⟩

/-- Claim C7 witness: the validation theorem applied to the concrete
rejected input with module_id -1. -/
theorem C7_config_validation_witness : ∃ errs, errs ≠ [] ∧
    config_async_step_user (some ⟨-1, 8, 8, "t"⟩) = .showForm errs :=
  (C7_config_validation ⟨-1, 8, 8, "t"⟩).1 rfl

/-- Claim C8: for an accepted configuration, sensor platform setup
constructs exactly relay_count relay entities with indices
0..relay_count-1 and exactly button_count button entities with indices
0..button_count-1, their (module_id, kind, index) identities are
pairwise distinct, and all of them are registered in a single batch. -/
theorem C8_hub_registration : ∀ (m rc bc : Nat) (vt : String), ¬ (rc = 0 ∧ bc = 0) →
    ((sensor_async_setup_entry m rc bc vt).filter
        (fun e => e.device_type == "relay")).map SensorEntity.sensor_index = List.range rc ∧
    ((sensor_async_setup_entry m rc bc vt).filter
        (fun e => e.device_type == "button")).map SensorEntity.sensor_index = List.range bc ∧
    ((sensor_async_setup_entry m rc bc vt).map SensorEntity.identity).Nodup ∧
    sensor_setup_batches m rc bc vt = [sensor_async_setup_entry m rc bc vt] ∧
    (sensor_async_setup_entry m rc bc vt).length = rc + bc := by
  intro m rc bc vt _
  refine ⟨?_, ?_, ?_, rfl, ?_⟩
  · simp [sensor_async_setup_entry, List.filter_append, List.filter_map, Function.comp_def]
  · simp [sensor_async_setup_entry, List.filter_append, List.filter_map, Function.comp_def]
  · simp only [sensor_async_setup_entry, List.map_append, List.map_map]
    apply List.Nodup.append
    · apply List.Nodup.map
      · intro a b hab
        simpa [SensorEntity.identity] using hab
      · exact List.nodup_range _
    · apply List.Nodup.map
      · intro a b hab
        simpa [SensorEntity.identity] using hab
      · exact List.nodup_range _
    · intro x hx hy
      simp only [List.mem_map, List.mem_range, Function.comp] at hx hy
      obtain ⟨a, _, rfl⟩ := hx
      obtain ⟨b, _, hb⟩ := hy
      simp [SensorEntity.identity] at hb
  · simp [sensor_async_setup_entry]

/-- Claim C8 witness: the registration theorem applied to the accepted
configuration with 3 relays and 0 buttons from the spec. -/
theorem C8_hub_registration_witness :
    ((sensor_async_setup_entry 7 3 0 "t").filter
        (fun e => e.device_type == "relay")).map SensorEntity.sensor_index = List.range 3 ∧
    ((sensor_async_setup_entry 7 3 0 "t").filter
        (fun e => e.device_type == "button")).map SensorEntity.sensor_index = List.range 0 ∧
    ((sensor_async_setup_entry 7 3 0 "t").map SensorEntity.identity).Nodup ∧
    sensor_setup_batches 7 3 0 "t" = [sensor_async_setup_entry 7 3 0 "t"] ∧
    (sensor_async_setup_entry 7 3 0 "t").length = 3 + 0 :=
  C8_hub_registration 7 3 0 "t" (by simp)

/-- Claim C9: the mapping text 12: 4 and 15: [4, 5] parses to the
corresponding dictionary and is accepted; any submission whose root is
not a mapping (scalar, sequence or parse error) is rejected with the
single mapping error while the form redisplays the default computed
from the previously stored mapping; the options are updated only on
acceptance, with exactly the parsed dictionary. -/
theorem C9_options_mapping :
    (safe_load "12: 4\n15: [4, 5]\n"
      = .ok (.ymap [(.yint 12, .yint 4), (.yint 15, .yseq [.yint 4, .yint 5])])) ∧
    (∀ stored, options_async_step_user stored (some "12: 4\n15: [4, 5]\n")
      = .createEntry (.ymap [(.yint 12, .yint 4), (.yint 15, .yseq [.yint 4, .yint 5])])) ∧
    (options_async_step_user Option.none (some "- 1\n- 2\n")
      = .showForm DEFAULT_MAPPING_YAML [("mapping", "Mapping must be a YAML dictionary.")]) ∧
    (∀ stored s v, safe_load s = .ok v → yaml_is_dict v = false →
      options_async_step_user stored (some s)
        = .showForm (options_default_mapping stored)
            [("mapping", "Mapping must be a YAML dictionary.")]) ∧
    (∀ stored s e, safe_load s = .error e →
      options_async_step_user stored (some s)
        = .showForm (options_default_mapping stored) [("mapping", "Invalid YAML format.")]) ∧
    (∀ stored s v, options_async_step_user stored (some s) = .createEntry v →
      safe_load s = .ok v ∧ yaml_is_dict v = true) := by
  refine ⟨rfl, fun stored => rfl, rfl, ?_, ?_, ?_⟩
  · intro stored s v h hd
    simp [options_async_step_user, h, hd]
  · intro stored s e h
    simp [options_async_step_user, h]
  · intro stored s v h
    cases hsl : safe_load s with
    | error e => simp [options_async_step_user, hsl] at h
    | ok v0 =>
      by_cases hd : yaml_is_dict v0
      · simp only [options_async_step_user, hsl, hd, if_true] at h
        injection h with hv
        exact ⟨congrArg Except.ok hv, hv ▸ hd⟩
      · simp [options_async_step_user, hsl, hd] at h

/-- Claim C9 witness: the rejection branch applied to the concrete
sequence document from the spec. -/
theorem C9_options_mapping_witness :
    options_async_step_user Option.none (some "- 1\n- 2\n")
      = .showForm (options_default_mapping Option.none)
          [("mapping", "Mapping must be a YAML dictionary.")] :=
  C9_options_mapping.2.2.2.1 Option.none "- 1\n- 2\n" (.yseq [.yint 1, .yint 2]) rfl rfl

/-- Claim C10: evaluation of the handlers at the failing input. A bytes
payload that is not valid UTF-8 makes every handler raise
UnicodeDecodeError out of the message path, because the decode call
precedes any try block; the lights.py handler additionally raises
AttributeError when the template produces a non-string, so the claim
that no payload makes a handler raise is contradicted by the code. -/
theorem C10_handler_raises : ∀ (vt : String) (ev : PyVal → Except Unit PyVal) (prev : Bool),
    light_message_received vt ev prev (.bytes [0xFF]) = .error .unicodeDecodeError ∧
    lights_message_received vt ev (.bytes [0xFF]) = .error .unicodeDecodeError ∧
    sensor_message_received vt ev (.bytes [0xFF]) = .error .unicodeDecodeError ∧
    lights_message_received "t" (fun _ => .ok (.int 1)) (.text "1")
      = .error .attributeError :=
  fun _ _ _ => ⟨rfl, rfl, rfl, rfl⟩
